import Mathlib

namespace Banyan

/-! Shallow embedding of the banyan snapshot tool core: src/util/pstring.rs,
src/util/queue.rs, src/util/unix.rs, src/repo/object.rs, src/repo/layer.rs.
Bytes are modelled as Nat, byte buffers as List Nat, machine integers as Nat. -/

/-- PString (pstring.rs): an owned path string. The field cstr holds the
underlying storage including the trailing NUL byte; the field length is the
advertised length, which excludes the terminator. -/
structure PString where
  length : Nat
  cstr : List Nat
  deriving DecidableEq, Repr

/-- PString::from_str (pstring.rs lines 104-109): storage is the text bytes
plus a NUL terminator; length is the text byte count. -/
def PString.fromStr (s : List Nat) : PString :=
  { length := s.length, cstr := s ++ [0] }

/-- CString::as_bytes view of a PString: the stored bytes without the
trailing NUL. -/
def PString.bytes (p : PString) : List Nat := p.cstr.dropLast

/-- PString::append_path (pstring.rs lines 121-150). Returns none when the
source expression bytes[bytes.len() - 1] panics with an index out of bounds,
which happens exactly when the byte content is empty. Otherwise a separator
byte 47 is inserted iff the last byte is not already 47, the first
self.length bytes of self are copied, then the child bytes, then a NUL; the
advertised length is bytes.len() + filename.len() + addsep. -/
def PString.appendPath (p : PString) (filename : List Nat) : Option PString :=
  match p.bytes.getLast? with
  | none => none
  | some last =>
      let sep : List Nat := if last = 47 then [] else [47]
      some { length := p.bytes.length + filename.length + sep.length,
             cstr := p.bytes.take p.length ++ sep ++ filename ++ [0] }

/-- BTreeMap insert: overwrite the value under an existing key, otherwise
add the binding. -/
def mapInsert {α β : Type} [DecidableEq α] (m : List (α × β)) (k : α)
    (v : β) : List (α × β) :=
  if m.any (fun kv => decide (kv.1 = k)) then
    m.map (fun kv => if kv.1 = k then (k, v) else kv)
  else m ++ [(k, v)]

/-- BTreeMap::extend as used by FsState::extend: insert every entry of the
second map into the first, overwriting on duplicate keys. -/
def mapExtend {α β : Type} [DecidableEq α] (m other : List (α × β)) :
    List (α × β) :=
  other.foldl (fun acc kv => mapInsert acc kv.1 kv.2) m

/-- DirState (layer.rs lines 30-36): metadata of one visited directory. -/
structure DirState where
  perms : Nat
  uid : Nat
  gid : Nat
  xattrs : Option (List (List Nat × List Nat))
  deriving DecidableEq, Repr

/-- Object (layer.rs lines 21-28): metadata plus content hash of one
regular file. -/
structure Object where
  hash : List Nat
  perms : Nat
  uid : Nat
  gid : Nat
  xattrs : Option (List (List Nat × List Nat))
  deriving DecidableEq, Repr

/-- FsState (layer.rs lines 43-48): the three maps of a layer. -/
structure FsState where
  dirs : List (PString × DirState)
  objects : List (PString × Object)
  links : List (PString × List Nat)
  deriving DecidableEq, Repr

/-- FsState::new (layer.rs lines 57-65). -/
def FsState.new : FsState := { dirs := [], objects := [], links := [] }

/-- FsState::extend (layer.rs lines 50-55), exactly as written in the
source: it extends dirs and objects from the other state; the links map of
the other state is not extended, so the merged links stay those of self. -/
def FsState.extend (s other : FsState) : FsState :=
  { dirs := mapExtend s.dirs other.dirs,
    objects := mapExtend s.objects other.objects,
    links := s.links }

/-- What a dequeued dirent resolves to once classified: the record the
worker inserts on success for a directory, regular file or symlink, or a
per-record syscall or encoding failure. -/
inductive EntryKind where
  | dir (d : DirState)
  | file (o : Object)
  | link (target : List Nat)
  | fail
  deriving DecidableEq, Repr

/-- A dequeued directory entry: the basedir PString of its page, its
filename bytes without the NUL, and its resolution. -/
structure Dirent where
  base : PString
  fname : List Nat
  kind : EntryKind
  deriving DecidableEq, Repr

/-- WalkState (layer.rs lines 101-104). -/
inductive WalkState where
  | cont
  | quit
  deriving DecidableEq, Repr

/-- The decision part of NQWorker::handle_error (layer.rs lines 154-164):
Continue when ignore_errors is true, Quit otherwise. -/
def handleError (ignoreErrors : Bool) : WalkState :=
  if ignoreErrors then WalkState.cont else WalkState.quit

/-- NQWorker::visit plus visit_internal (layer.rs lines 140-230): filenames
46 and 46,46 are skipped before anything else; otherwise the full path is
basedir append_path filename and the classified record is inserted into the
private accumulator, or on failure the path is pushed onto the error sink
and handle_error decides. A none result models the append_path panic. -/
def NQWorker.visit (ignoreErrors : Bool) (s : FsState) (errs : List PString)
    (d : Dirent) : Option (FsState × List PString × WalkState) :=
  if d.fname = [46] ∨ d.fname = [46, 46] then some (s, errs, WalkState.cont)
  else
    match d.base.appendPath d.fname with
    | none => none
    | some path =>
        match d.kind with
        | EntryKind.dir ds =>
            some ({ s with dirs := mapInsert s.dirs path ds }, errs,
              WalkState.cont)
        | EntryKind.file o =>
            some ({ s with objects := mapInsert s.objects path o }, errs,
              WalkState.cont)
        | EntryKind.link t =>
            some ({ s with links := mapInsert s.links path t }, errs,
              WalkState.cont)
        | EntryKind.fail =>
            some (s, errs ++ [path], handleError ignoreErrors)

/-- NQWorker::run (layer.rs lines 111-138), sequential abstraction: the
list is the sequence of dirents this worker dequeues from the shared queue;
on Quit the worker raises quit_now and breaks, returning its private state;
the error sink contents pushed so far travel alongside. -/
def NQWorker.run (ignoreErrors : Bool) :
    List Dirent → FsState → List PString → Option (FsState × List PString)
  | [], s, errs => some (s, errs)
  | d :: rest, s, errs =>
      match NQWorker.visit ignoreErrors s errs d with
      | none => none
      | some (s2, errs2, WalkState.cont) =>
          NQWorker.run ignoreErrors rest s2 errs2
      | some (s2, errs2, WalkState.quit) => some (s2, errs2)

/-- visit (layer.rs lines 243-300): run every worker, merge the returned
accumulators with FsState::extend, and return Ok of the merged state. As in
the source, the shared error sink is never consulted afterwards: per-record
errors do not influence the returned value. -/
def visitRun (ignoreErrors : Bool) (workers : List (List Dirent)) :
    Option (Except String FsState) :=
  (workers.mapM (fun its => NQWorker.run ignoreErrors its FsState.new [])).map
    (fun results =>
      Except.ok (results.foldl (fun acc r => FsState.extend acc r.1)
        FsState.new))

/-- The outcome of layer::import: whether a layer file was written under
repo layers, and the merged state that was serialized into it. -/
structure ImportResult where
  layerWritten : Bool
  state : FsState
  deriving DecidableEq, Repr

/-- layer::import (layer.rs lines 302-325): calls visit with ignore_errors
hardcoded to false; whenever visit returns Ok it serializes the merged
state, writes the layer file under repo layers and returns the state hash.
layerWritten records that the layer file write happened. -/
def layerImport (workers : List (List Dirent)) :
    Option (Except String ImportResult) :=
  (visitRun false workers).map (fun r =>
    match r with
    | Except.error e => Except.error e
    | Except.ok s => Except.ok { layerWritten := true, state := s })

/-- Environment of one open fd for the xattr wrapper: the xattr names as
listed by flistxattr, and for each name the value bytes fgetxattr fetches. -/
structure XattrEnv where
  names : List (List Nat)
  value : List Nat → List Nat

/-- Vec set_len to n on a vector whose initialized content is v: the length
becomes n; bytes past the fetched content are unspecified memory, modelled
as zeros. -/
def setLen (v : List Nat) (n : Nat) : List Nat :=
  (v ++ List.replicate n 0).take n

/-- xattrs (unix.rs lines 10-96): size is the byte length of the
NUL-separated name list, one NUL after each name; the wrapper returns none
when that size is 0; otherwise, for each name it queries value_size, fetches
that many value bytes, and then calls set_len with the outer name-list size,
exactly as the source does at line 84. -/
def xattrs (env : XattrEnv) : Option (List (List Nat × List Nat)) :=
  let size := (env.names.map (fun n => n.length + 1)).sum
  if size = 0 then none
  else some (env.names.map (fun n => (n, setLen (env.value n) size)))

/-- libc O_NOFOLLOW on Linux x86-64, octal 400000. -/
def O_NOFOLLOW : Nat := 131072

/-- libc O_DIRECTORY on Linux x86-64, octal 200000. -/
def O_DIRECTORY : Nat := 65536

/-- The oflag expression the worker passes to openat in visit_internal
(layer.rs lines 194-198): the source computes the bitwise AND of O_NOFOLLOW
with O_DIRECTORY when the entry is a directory, else with 0. -/
def visitOpenFlags (dir : Bool) : Nat :=
  Nat.land O_NOFOLLOW (if dir then O_DIRECTORY else 0)

/-- Result of the exclusive-create openat inside object::import. -/
inductive OpenAtResult where
  | created
  | alreadyExists
  | otherError
  deriving DecidableEq, Repr

/-- Observable outcome of object::import: whether it returned Ok of the
hash, and whether the source file descriptor got closed. -/
structure ObjectImportResult where
  ok : Bool
  sourceClosed : Bool
  deriving DecidableEq, Repr

/-- object::import (object.rs lines 13-69). The source fd is wrapped in an
owning File value right away; every early return through the question mark
operator before the final into_raw_fd call drops that File, which closes
the fd. The streaming read loop, the rewind and the copy each return early
on failure; the openat branches run to the into_raw_fd call. -/
def objectImport (readOk rewindOk : Bool) (o : OpenAtResult)
    (copyOk : Bool) : ObjectImportResult :=
  if readOk = false then { ok := false, sourceClosed := true }
  else if rewindOk = false then { ok := false, sourceClosed := true }
  else
    match o with
    | OpenAtResult.created =>
        if copyOk then { ok := true, sourceClosed := false }
        else { ok := false, sourceClosed := true }
    | OpenAtResult.alreadyExists => { ok := true, sourceClosed := false }
    | OpenAtResult.otherError => { ok := false, sourceClosed := false }

/-- NODE_LEN (queue.rs line 13): the dirent page buffer capacity. -/
def NODE_LEN : Nat := 4096 - 3 * 64

/-- Queue::add_folder (queue.rs lines 201-218) over the list of byte counts
that the successive directory-read syscalls return; exhaustion of the list
stands for a zero read. A zero read adds nothing and stops the loop;
otherwise the page is linked onto the tail and the loop stops iff the read
returned fewer than 3072 bytes, the literal the source compares against.
The result is the queue page size list. -/
def Queue.addFolder (q : List Nat) : List Nat → List Nat
  | [] => q
  | r :: rs =>
      if r = 0 then q
      else if r < 3072 then q ++ [r]
      else Queue.addFolder (q ++ [r]) rs

/-- The enqueue loop as the claim words it: stop exactly when a read
returns strictly less than three quarters of the page buffer capacity
NODE_LEN. This definition follows the claim text and exists only to be
compared against Queue.addFolder, which follows the source. -/
def Queue.addFolderClaim (q : List Nat) : List Nat → List Nat
  | [] => q
  | r :: rs =>
      if r = 0 then q
      else if r < 3 * NODE_LEN / 4 then q ++ [r]
      else Queue.addFolderClaim (q ++ [r]) rs

/-- Queue::new_with_folder (queue.rs lines 175-199): read the first page; a
zero first read yields the error string of the source; otherwise the queue
is seeded with that first page and add_folder links the remaining pages. -/
def Queue.newWithFolder (reads : List Nat) : Except String (List Nat) :=
  match reads with
  | [] => Except.error "directory is empty."
  | r :: rs =>
      if r = 0 then Except.error "directory is empty."
      else Except.ok (Queue.addFolder [r] rs)

/-- A dirent page for NodeData::advance: the valid byte length and, for
each record offset o, the record length that the 2-byte read at o + 16
yields. -/
structure PageModel where
  size : Nat
  reclen : Nat → Nat

/-- The successful compare-exchange steps on the page cursor in
NodeData::advance (queue.rs lines 139-161): from cursor c with c < size the
record at offset c is claimed and the cursor becomes c + reclen c.
AdvanceTrace p c l holds when l is the list of record offsets claimed, in
order, by any interleaving of advance calls starting from cursor c: a
failed CAS leaves the cursor unchanged and retries, so only the successful
exchanges appear in the trace. -/
inductive AdvanceTrace (p : PageModel) : Nat → List Nat → Prop where
  | nil (c : Nat) : AdvanceTrace p c []
  | claim (c : Nat) (l : List Nat) (h : c < p.size)
      (ht : AdvanceTrace p (c + p.reclen c) l) : AdvanceTrace p c (c :: l)

/-- The root path PString from_str of a dot, as the orchestrator seeds it. -/
def rootP : PString := PString.fromStr [46]

/-- Sample directory metadata: mode 755, uid and gid 1000, no xattrs. -/
def d0 : DirState := { perms := 493, uid := 1000, gid := 1000, xattrs := none }

/-- Sample object record with a one-byte stand-in hash. -/
def o0 : Object :=
  { hash := [104], perms := 420, uid := 1000, gid := 1000, xattrs := none }

/-- The path dot slash d. -/
def pD : PString := { length := 3, cstr := [46, 47, 100, 0] }

/-- The path dot slash d slash x. -/
def pDX : PString := { length := 5, cstr := [46, 47, 100, 47, 120, 0] }

/-- The path dot slash s. -/
def pS : PString := { length := 3, cstr := [46, 47, 115, 0] }

/-- The path dot slash a. -/
def pA : PString := { length := 3, cstr := [46, 47, 97, 0] }

/-- The path dot slash empty. -/
def pEmpty : PString :=
  { length := 7, cstr := [46, 47, 101, 109, 112, 116, 121, 0] }

/-- Scenario E2 of the spec as one worker trace: the directory d, the
regular file d slash x, and the symlink s with target d slash x. -/
def e2items : List Dirent :=
  [ { base := rootP, fname := [100], kind := EntryKind.dir d0 },
    { base := pD, fname := [120], kind := EntryKind.file o0 },
    { base := rootP, fname := [115], kind := EntryKind.link [100, 47, 120] } ]

/-- Scenario E3 of the spec as one worker trace: the dirents of the root
page are dot, dot dot and the directory named empty. -/
def e3items : List Dirent :=
  [ { base := rootP, fname := [46], kind := EntryKind.dir d0 },
    { base := rootP, fname := [46, 46], kind := EntryKind.dir d0 },
    { base := rootP, fname := [101, 109, 112, 116, 121],
      kind := EntryKind.dir d0 } ]

/-- An fd with a single xattr named user.a whose value is the five bytes of
hello. -/
def envA : XattrEnv :=
  { names := [[117, 115, 101, 114, 46, 97]],
    value := fun _ => [104, 101, 108, 108, 111] }

/-- Claim C1. The claim states that the orchestrator merges the private
accumulators by disjoint union across all three maps, so every symlink a
worker records appears in the merged LayerState. On scenario E2, the worker
state does hold the symlink record for path dot slash s, but the merged
state produced by the visit orchestration has an empty links map, because
FsState::extend never extends links. -/
theorem C1_merge_drops_links :
    NQWorker.run false e2items FsState.new [] =
      some ({ dirs := [(pD, d0)], objects := [(pDX, o0)],
              links := [(pS, [100, 47, 120])] }, []) ∧
    visitRun false [e2items] =
      some (Except.ok { dirs := [(pD, d0)], objects := [(pDX, o0)],
                        links := [] }) := by
  constructor <;> rfl

/-- Claim C2. The claim states that with ignore_errors false, a per-record
error cancels the workers, the orchestrator returns the error, and no layer
file is written. In the code the erroring worker does quit after pushing
the path onto the sink, but visit never reads the sink and returns Ok, and
layer::import then writes the layer file and returns success: evaluated
here on a single record whose processing fails. -/
theorem C2_error_not_propagated :
    NQWorker.run false
        [{ base := rootP, fname := [97], kind := EntryKind.fail }]
        FsState.new [] = some (FsState.new, [pA]) ∧
    layerImport [[{ base := rootP, fname := [97], kind := EntryKind.fail }]] =
      some (Except.ok { layerWritten := true, state := FsState.new }) := by
  constructor <;> rfl

/-- Claim C3. The claim states that the root path, a single dot, appears as
a key of the merged dirs map once traversal completes. On scenario E3 the
worker skips the dot and dot dot dirents and records only the subdirectory,
and nothing else ever inserts the root: the merged dirs map holds exactly
the path dot slash empty, and the root PString is not among its keys. -/
theorem C3_root_missing_from_dirs :
    visitRun false [e3items] =
      some (Except.ok { dirs := [(pEmpty, d0)], objects := [],
                        links := [] }) ∧
    rootP ∉ ([(pEmpty, d0)].map Prod.fst) := by
  refine ⟨by rfl, by decide⟩

/-- Claim C4. The claim states that for each xattr name present, the stored
value is exactly the value bytes fetched for that name. On an fd with the
single xattr user.a whose value is the five bytes of hello, the name list
is seven bytes long, and the source calls set_len with that name-list size
instead of the fetched value size: the stored value has length seven, not
the five fetched bytes. -/
theorem C4_xattr_value_wrong_length :
    xattrs envA =
      some [([117, 115, 101, 114, 46, 97],
             [104, 101, 108, 108, 111, 0, 0])] ∧
    envA.value [117, 115, 101, 114, 46, 97] = [104, 101, 108, 108, 111] := by
  constructor <;> rfl

/-- Claim C5. The claim states that the worker opens a non-symlink entry
with the NOFOLLOW flag set, plus the DIRECTORY flag for directories. The
source computes the bitwise AND of O_NOFOLLOW with the conditional flag, so
the flags passed to openat are 0 for directories and non-directories alike,
although both constants are nonzero: neither flag is ever set. -/
theorem C5_open_flags_zero :
    visitOpenFlags true = 0 ∧ visitOpenFlags false = 0 ∧
    O_NOFOLLOW ≠ 0 ∧ O_DIRECTORY ≠ 0 := by decide

/-- Claim C6. The claim states that object::import never closes the source
fd on any path. Evaluated on each path of the model: the fd survives the
created, already-exists and other-openat-error paths, but a failure of the
streaming read, of the rewind, or of the copy makes the function return
early through the question mark operator, dropping the owning File and
closing the source fd. -/
theorem C6_fd_closed_on_error_path :
    (objectImport false true OpenAtResult.created true).sourceClosed
        = true ∧
    (objectImport true false OpenAtResult.created true).sourceClosed
        = true ∧
    (objectImport true true OpenAtResult.created false).sourceClosed
        = true ∧
    (objectImport true true OpenAtResult.created true).sourceClosed
        = false ∧
    (objectImport true true OpenAtResult.alreadyExists true).sourceClosed
        = false ∧
    (objectImport true true OpenAtResult.otherError true).sourceClosed
        = false := by decide

/-- Claim C7, counterexample. The claim states that add_folder stops
exactly when a read returns strictly less than three quarters of the page
buffer capacity, which is 3 times NODE_LEN over 4, that is 2928 bytes. The
source compares against the literal 3072: on reads of 3000 then 3904 bytes
the source loop stops after the first page while the claimed rule would
link both pages. -/
theorem C7_counterexample :
    Queue.addFolder [] [3000, 3904] = [3000] ∧
    Queue.addFolderClaim [] [3000, 3904] = [3000, 3904] ∧
    3 * NODE_LEN / 4 = 2928 ∧
    Queue.addFolder [] [3000, 3904] ≠ Queue.addFolderClaim [] [3000, 3904] :=
  by decide

/-- Claim C7 as amended: add_folder links onto the tail every page whose
read returned at least 3072 bytes, then stops at the first read under 3072
bytes, linking that final page too unless the read returned zero bytes, in
which case nothing more is linked. The literal 3072 is three quarters of
4096, not of the actual buffer capacity NODE_LEN. -/
theorem C7_add_folder_stops_at_3072 (q rs : List Nat) :
    Queue.addFolder q rs =
      q ++ rs.takeWhile (fun r => decide (3072 ≤ r)) ++
        (match rs.dropWhile (fun r => decide (3072 ≤ r)) with
         | [] => []
         | r :: _ => if r = 0 then [] else [r]) := by
  induction rs generalizing q with
  | nil => simp [Queue.addFolder]
  | cons r rs ih =>
      by_cases h1 : 3072 ≤ r
      · have h0 : ¬ r = 0 := by omega
        have h2 : ¬ r < 3072 := by omega
        rw [Queue.addFolder, if_neg h0, if_neg h2, ih,
          List.takeWhile_cons, List.dropWhile_cons]
        simp [h1]
      · have h2 : r < 3072 := by omega
        rw [Queue.addFolder, List.takeWhile_cons, List.dropWhile_cons]
        by_cases h0 : r = 0
        · subst h0
          simp [h1]
        · rw [if_neg h0, if_pos h2]
          simp [h1, h0]

/-- Claim C8: across any sequence of advance calls on one dirent page,
interleaved among any number of workers, each record in the valid region is
claimed at most once; a record at offset o is claimed only by the
compare-exchange that moves the cursor from o to o plus the record length
read at o plus 16, which is what each AdvanceTrace step is. Well-formedness
of the page, positive record lengths in the valid region, makes the cursor
strictly increase, so the claimed offsets are pairwise distinct. -/
theorem C8_advance_at_most_once (p : PageModel)
    (hwf : ∀ o, o < p.size → 0 < p.reclen o) (l : List Nat)
    (h : AdvanceTrace p 0 l) : l.Nodup := by
  have key : ∀ c m, AdvanceTrace p c m →
      m.Pairwise (fun a b => a < b) ∧ ∀ x ∈ m, c ≤ x := by
    intro c m hm
    induction hm with
    | nil c =>
        exact ⟨List.Pairwise.nil, fun x hx => absurd hx (List.not_mem_nil x)⟩
    | claim c m hc ht ih =>
        obtain ⟨ihp, ihlb⟩ := ih
        have hstep : c < c + p.reclen c :=
          Nat.lt_add_of_pos_right (hwf c hc)
        refine ⟨List.Pairwise.cons
          (fun x hx => lt_of_lt_of_le hstep (ihlb x hx)) ihp, ?_⟩
        intro x hx
        rcases List.mem_cons.mp hx with h1 | h2
        · exact le_of_eq h1.symm
        · exact Nat.le_of_lt (lt_of_lt_of_le hstep (ihlb x h2))
  exact List.Pairwise.imp (fun hab => Nat.ne_of_lt hab) (key 0 l h).1

/-- Witness for C8: a page of 57 valid bytes holding three records of
length 19 each, claimed in a trace at offsets 0, 19 and 38; the theorem
yields that the claimed offsets are distinct. -/
theorem C8_witness :
    (∀ o : Nat, o < 57 → 0 < 19) ∧ ([0, 19, 38] : List Nat).Nodup :=
  ⟨fun _ _ => by decide,
   C8_advance_at_most_once { size := 57, reclen := fun _ => 19 }
     (fun _ _ => Nat.succ_pos 18) [0, 19, 38]
     (AdvanceTrace.claim 0 _ (by decide)
       (AdvanceTrace.claim 19 _ (by decide)
         (AdvanceTrace.claim 38 _ (by decide) (AdvanceTrace.nil 57))))⟩

/-- Claim C9: queue construction from the root returns the error whose text
is directory is empty exactly when the first directory-read returns zero
bytes, the empty read list standing for an immediate zero read; otherwise
it returns the queue seeded with the first root page followed by the pages
add_folder links. -/
theorem C9_new_with_folder (reads : List Nat) :
    (Queue.newWithFolder reads = Except.error "directory is empty." ↔
      reads.headD 0 = 0) ∧
    (∀ r rs, reads = r :: rs → r ≠ 0 →
      Queue.newWithFolder reads = Except.ok (Queue.addFolder [r] rs)) := by
  cases reads with
  | nil =>
      refine ⟨by simp [Queue.newWithFolder], ?_⟩
      intro r rs h
      cases h
  | cons r rs =>
      by_cases h0 : r = 0
      · subst h0
        refine ⟨by simp [Queue.newWithFolder], ?_⟩
        intro a as ha hne
        injection ha with h1 h2
        exact absurd h1.symm hne
      · refine ⟨by simp [Queue.newWithFolder, h0], ?_⟩
        intro a as ha hne
        injection ha with h1 h2
        subst h1
        subst h2
        simp [Queue.newWithFolder, h0]

/-- Witness for C9: a root whose first read returns a full page of 3904
bytes and whose second returns 100 bytes yields the seeded queue. -/
theorem C9_witness :
    Queue.newWithFolder [3904, 100] =
      Except.ok (Queue.addFolder [3904] [100]) :=
  (C9_new_with_folder [3904, 100]).2 3904 [100] rfl (by decide)

/-- Claim C10, counterexample. The claim states that append_path is
infallible for every PathName. On the PathName built from the empty text,
whose byte content is empty, the source indexes bytes at position
bytes.len() minus 1 and panics, modelled as none. -/
theorem C10_counterexample :
    (PString.fromStr []).appendPath [97] = none := rfl

/-- Claim C10 as amended: for every PathName whose byte content is
nonempty, with the length field consistent with its storage, append_path
is infallible and returns a PString whose storage is the bytes of p,
followed by a slash iff the last byte of p is not already a slash,
followed by the child bytes, followed by a NUL terminator, and whose
advertised length excludes the terminator. -/
theorem C10_append_path_nonempty (p : PString) (c : List Nat)
    (hne : p.bytes ≠ []) (hlen : p.length = p.bytes.length) :
    ∃ q, p.appendPath c = some q ∧
      q.cstr = p.bytes ++
        (if p.bytes.getLast? = some 47 then [] else [47]) ++ c ++ [0] ∧
      q.length + 1 = q.cstr.length := by
  have htake : p.bytes.take p.length = p.bytes := by
    rw [hlen]
    exact List.take_length _
  rcases h : p.bytes.getLast? with _ | last
  · exact absurd (List.getLast?_eq_none_iff.mp h) hne
  · simp only [PString.appendPath, h]
    refine ⟨_, rfl, ?_, ?_⟩
    · rw [htake]
      by_cases h47 : last = 47 <;> simp [h47]
    · rw [htake]
      by_cases h47 : last = 47 <;>
        simp [h47, List.length_append] <;> omega

/-- Witness for C10: appending the child name d to the root path dot
yields the storage dot slash d NUL of advertised length three. -/
theorem C10_witness :
    ∃ q, (PString.fromStr [46]).appendPath [100] = some q ∧
      q.cstr = (PString.fromStr [46]).bytes ++
        (if (PString.fromStr [46]).bytes.getLast? = some 47 then []
         else [47]) ++ [100] ++ [0] ∧
      q.length + 1 = q.cstr.length :=
  C10_append_path_nonempty (PString.fromStr [46]) [100] (by decide)
    (by decide)

end Banyan
